import Mathlib

/-!
Shallow embedding of the rescue orchestrator of `src/base-utils.ts`
(EVM emergency service).  Wei amounts and fee values are modelled as exact
rationals (`ethers.BigNumber` arithmetic is exact on integers; the gwei-level
scaling in the source is idealized to exact rational arithmetic), nonces and
gas factors as naturals, signed raw transactions as the records of fields the
source passes to `signTransaction` together with the signing wallet's address.
Network interaction is modelled by environment records holding the values the
chain returns, and the submission path additionally produces a trace of
gateway events in issuance order (a JS `async` closure runs synchronously up
to its first `await`, so within `Promise.all` the private broadcast and the
start of the primary submission of each transaction are issued in list order).
-/

namespace BaseUtils

/-- `GWEI = BigNumber.from(10).pow(9)` (base-utils.ts line 3). -/
def GWEI : ℚ := 10 ^ 9

/-- `MAX_RETRY_ATTEMPTS = 3` (base-utils.ts line 6). -/
def MAX_RETRY_ATTEMPTS : ℕ := 3

/-- `GAS_ESCALATION_FACTOR = 130` percent (base-utils.ts line 8). -/
def GAS_ESCALATION_FACTOR : ℕ := 130

/-- `MAX_FEE_CAP_GWEI = 10` (base-utils.ts line 10). -/
def MAX_FEE_CAP_GWEI : ℚ := 10

/-- `utils.parseUnits(x.toString(), "gwei")`: gwei to wei. -/
def parseUnitsGwei (g : ℚ) : ℚ := g * GWEI

/-- One token-transfer call: `TokenTransferTx` of the source. -/
structure TokenTransferTx where
  toAddr : String
  data : String
  gasLimit : ℚ
deriving DecidableEq

/-- The transaction template handed to `wallet.signTransaction`, together
with the signing wallet's address.  All transactions in the source are
EIP-1559 type-2, so the type tag is left implicit. -/
structure TxRequest where
  signer : String
  toAddr : String
  value : ℚ
  data : String
  gasLimit : ℚ
  maxFeePerGas : ℚ
  maxPriorityFeePerGas : ℚ
  nonce : ℕ
  chainId : ℕ
deriving DecidableEq

/-- `SignedRescueBundle` of the source (base-utils.ts lines 12-22). -/
structure SignedRescueBundle where
  fundingTx : TxRequest
  transferTxs : List TxRequest
  totalGasCost : ℚ
  gasPrice : ℚ
  sponsorAddress : String
  executorAddress : String
  executorNonce : ℕ
  sponsorNonce : ℕ
deriving DecidableEq

/-- `RescueResult` of the source (base-utils.ts lines 24-30). -/
structure RescueResult where
  fundingHash : String
  transferHashes : List String
  success : Bool
  attempts : ℕ
  error : Option String
deriving DecidableEq

/-- Chain state read by `signRescueBundle`: latest block base fee, the two
pending nonces returned by `fetchNonces`, and the network chain id. -/
structure PlanEnv where
  baseFeePerGas : ℚ
  sponsorNonce : ℕ
  executorNonce : ℕ
  chainId : ℕ
deriving DecidableEq

/-- `const cappedMaxFeeGwei = Math.min((maxFeeGwei * gasFactor) / 100,
MAX_FEE_CAP_GWEI)` (base-utils.ts lines 73-74), with the JS number
arithmetic idealized to exact rationals. -/
def cappedMaxFeeGwei (maxFeeGwei gasFactor : ℚ) : ℚ :=
  min (maxFeeGwei * gasFactor / 100) MAX_FEE_CAP_GWEI

/-- `baseFee.mul(2).add(priorityFee).gt(maxFee) ? baseFee.mul(2).add(priorityFee)
: maxFee` (base-utils.ts lines 78-80); all values in wei. -/
def effectiveMaxFee (baseFee priorityFee maxFee : ℚ) : ℚ :=
  if baseFee * 2 + priorityFee > maxFee then baseFee * 2 + priorityFee else maxFee

/-- The transfer transaction signed by the executor wallet for one call
(base-utils.ts lines 112-122): `value = 0`, type 2. -/
def mkTransferTx (executorAddress : String) (maxFee priorityFee : ℚ)
    (chainId : ℕ) (call : TokenTransferTx) (nonce : ℕ) : TxRequest :=
  { signer := executorAddress
    toAddr := call.toAddr
    value := 0
    data := call.data
    gasLimit := call.gasLimit
    maxFeePerGas := maxFee
    maxPriorityFeePerGas := priorityFee
    nonce := nonce
    chainId := chainId }

/-- The `for` loop of base-utils.ts lines 110-124 (also the body of
`resignTransferTxs`, lines 156-170, which signs the same template): each call
is signed in order with consecutive nonces starting at `nonce`. -/
def signTransferTxs (executorAddress : String) (calls : List TokenTransferTx)
    (maxFee priorityFee : ℚ) (nonce : ℕ) (chainId : ℕ) : List TxRequest :=
  match calls with
  | [] => []
  | call :: rest =>
      mkTransferTx executorAddress maxFee priorityFee chainId call nonce ::
        signTransferTxs executorAddress rest maxFee priorityFee (nonce + 1) chainId

/-- `signRescueBundle` (base-utils.ts lines 59-136).  `env` holds the values
returned by the chain gateway: latest base fee, the pending nonces from
`fetchNonces`, and the chain id. -/
def signRescueBundle (env : PlanEnv) (sponsorAddress executorAddress : String)
    (tokenTransferTxs : List TokenTransferTx) (priorityFeeGwei maxFeeGwei : ℚ)
    (executorIsContract : Bool) (gasFactor : ℚ) : SignedRescueBundle :=
  let baseFee := env.baseFeePerGas
  let priorityFee := parseUnitsGwei priorityFeeGwei
  let maxFee := parseUnitsGwei (cappedMaxFeeGwei maxFeeGwei gasFactor)
  let eff := effectiveMaxFee baseFee priorityFee maxFee
  let totalExecutorGas :=
    tokenTransferTxs.foldl (fun acc tx => acc + tx.gasLimit) 0
  let totalGasCost := totalExecutorGas * eff
  let fundingGasLimit : ℚ := if executorIsContract then 100000 else 21000
  let fundingTx : TxRequest :=
    { signer := sponsorAddress
      toAddr := executorAddress
      value := totalGasCost
      data := ""
      gasLimit := fundingGasLimit
      maxFeePerGas := eff
      maxPriorityFeePerGas := priorityFee
      nonce := env.sponsorNonce
      chainId := env.chainId }
  { fundingTx := fundingTx
    transferTxs :=
      signTransferTxs executorAddress tokenTransferTxs eff priorityFee
        env.executorNonce env.chainId
    totalGasCost := totalGasCost
    gasPrice := eff
    sponsorAddress := sponsorAddress
    executorAddress := executorAddress
    executorNonce := env.executorNonce
    sponsorNonce := env.sponsorNonce }

/-- `resignTransferTxs` (base-utils.ts lines 142-173): re-sign every call
against the freshly queried pending `nonce`, with the given fee pair; returns
the signed list and the nonce it used. -/
def resignTransferTxs (executorAddress : String) (calls : List TokenTransferTx)
    (gasPrice priorityFee : ℚ) (nonce : ℕ) (chainId : ℕ) :
    List TxRequest × ℕ :=
  (signTransferTxs executorAddress calls gasPrice priorityFee nonce chainId, nonce)

lemma signTransferTxs_length (a : String) (calls : List TokenTransferTx)
    (f p : ℚ) (n c : ℕ) :
    (signTransferTxs a calls f p n c).length = calls.length := by
  induction calls generalizing n with
  | nil => rfl
  | cons call rest ih => simp [signTransferTxs, ih]

lemma signTransferTxs_get? (a : String) (calls : List TokenTransferTx)
    (f p : ℚ) (n c i : ℕ) :
    (signTransferTxs a calls f p n c).get? i
      = (calls.get? i).map (fun call => mkTransferTx a f p c call (n + i)) := by
  induction calls generalizing n i with
  | nil => simp [signTransferTxs]
  | cons call rest ih =>
      cases i with
      | zero => simp [signTransferTxs]
      | succ j =>
          simp only [signTransferTxs, List.get?_cons_succ]
          rw [ih (n + 1) j]
          have h : n + 1 + j = n + (j + 1) := by omega
          rw [h]

lemma mem_signTransferTxs {a : String} {calls : List TokenTransferTx}
    {f p : ℚ} {n c : ℕ} {tx : TxRequest}
    (h : tx ∈ signTransferTxs a calls f p n c) :
    tx.signer = a ∧ tx.maxFeePerGas = f ∧ tx.maxPriorityFeePerGas = p ∧
      tx.value = 0 ∧ tx.chainId = c := by
  induction calls generalizing n with
  | nil => simp [signTransferTxs] at h
  | cons call rest ih =>
      simp only [signTransferTxs, List.mem_cons] at h
      rcases h with h | h
      · subst h; exact ⟨rfl, rfl, rfl, rfl, rfl⟩
      · exact ih h

/-- A gateway interaction, recorded in the order the source issues it:
signing a transaction, the fire-and-forget `sendTransaction` to private
gateway `gw`, the `sendTransaction` to the primary gateway (with the pool's
accept / refuse answer), and the two kinds of receipt waits. -/
inductive Event where
  | signTx (tx : TxRequest)
  | privateSend (gw : ℕ) (tx : TxRequest)
  | primarySend (tx : TxRequest) (accepted : Bool)
  | awaitFundingReceipt (tx : TxRequest)
  | awaitTransferReceipt (tx : TxRequest)
deriving DecidableEq

/-- The transaction an event is about. -/
def Event.txOf : Event → TxRequest
  | .signTx tx => tx
  | .privateSend _ tx => tx
  | .primarySend tx _ => tx
  | .awaitFundingReceipt tx => tx
  | .awaitTransferReceipt tx => tx

/-- Whether an event awaits the funding receipt. -/
def Event.isAwaitFunding : Event → Bool
  | .awaitFundingReceipt _ => true
  | _ => false

/-- Chain state read and returned during one submission attempt: the guard's
pending-nonce query, the pending nonce seen by an in-attempt
`resignTransferTxs` (nonce-guard path), the pending nonce seen by the
funded-fast-path `resignTransferTxs`, the chain id, the primary pool's
accept / refuse answer per raw transaction, the hash the primary returns, the
receipt status per transaction, and the executor balance read by `isFunded`. -/
structure ChainEnv where
  guardNonce : ℕ
  resignNonce : ℕ
  fastNonce : ℕ
  chainId : ℕ
  accepts : TxRequest → Bool
  txHash : TxRequest → String
  receiptStatus : TxRequest → ℕ
  balance : ℚ

/-- `broadcastToPrivateProviders` (base-utils.ts lines 191-201): issue the
raw transaction to every configured private gateway; results are ignored. -/
def broadcastToPrivateProviders (signedTx : TxRequest) (nPrivate : ℕ) :
    List Event :=
  (List.range nPrivate).map (fun g => Event.privateSend g signedTx)

/-- The fan-out for one transaction (base-utils.ts lines 362-363 and
373-380): private broadcasts first, then the primary submission. -/
def sendChunk (nPrivate : ℕ) (accepted : Bool) (tx : TxRequest) : List Event :=
  broadcastToPrivateProviders tx nPrivate ++ [Event.primarySend tx accepted]

/-- The nonce-staleness guard of `attemptSubmission` (base-utils.ts lines
341-359): when the re-queried executor pending nonce differs from
`bundle.executorNonce`, only the transfer transactions are re-signed, against
the current pending nonce, reusing `bundle.gasPrice` and the priority fee
derived from `priorityFeeGwei`; the funding transaction and every other
bundle field are left as they were. -/
def guardedBundle (cenv : ChainEnv) (bundle : SignedRescueBundle)
    (calls : List TokenTransferTx) (priorityFeeGwei : ℚ) : SignedRescueBundle :=
  if cenv.guardNonce = bundle.executorNonce then bundle
  else
    { bundle with
        transferTxs :=
          (resignTransferTxs bundle.executorAddress calls bundle.gasPrice
            (parseUnitsGwei priorityFeeGwei) cenv.resignNonce cenv.chainId).1 }

/-- The signing events emitted by the nonce-staleness guard. -/
def guardEvents (cenv : ChainEnv) (bundle : SignedRescueBundle)
    (calls : List TokenTransferTx) (priorityFeeGwei : ℚ) : List Event :=
  if cenv.guardNonce = bundle.executorNonce then []
  else
    ((resignTransferTxs bundle.executorAddress calls bundle.gasPrice
        (parseUnitsGwei priorityFeeGwei) cenv.resignNonce cenv.chainId).1).map
      Event.signTx

/-- `attemptSubmission` (base-utils.ts lines 332-465).  Returns the trace of
gateway events in issuance order and either the thrown error (the primary
refusing the funding transaction makes `provider.sendTransaction` throw) or
the attempt's `RescueResult`.  Mirrors the source: nonce guard, funding
fan-out, parallel transfer fan-out, early return with no receipt wait when
every transfer submission was refused, otherwise funding receipt wait then
transfer receipt waits, and `success` iff every accepted transfer's receipt
has status 1. -/
def attemptSubmission (cenv : ChainEnv) (bundle0 : SignedRescueBundle)
    (calls : List TokenTransferTx) (priorityFeeGwei : ℚ)
    (attempt : ℕ) (nPrivate : ℕ) :
    List Event × Except String RescueResult :=
  let gEvs := guardEvents cenv bundle0 calls priorityFeeGwei
  let bundle := guardedBundle cenv bundle0 calls priorityFeeGwei
  let fundingEvs := sendChunk nPrivate (cenv.accepts bundle.fundingTx) bundle.fundingTx
  if cenv.accepts bundle.fundingTx = false then
    (gEvs ++ fundingEvs, .error "funding submission refused")
  else
    let transferEvs :=
      (bundle.transferTxs.map (fun tx => sendChunk nPrivate (cenv.accepts tx) tx)).flatten
    let sendEvs := gEvs ++ fundingEvs ++ transferEvs
    let accepted := bundle.transferTxs.filter cenv.accepts
    if accepted.isEmpty then
      (sendEvs,
       .ok { fundingHash := cenv.txHash bundle.fundingTx
             transferHashes := []
             success := false
             attempts := attempt
             error := some "All transfer transactions failed to submit" })
    else
      let allSuccess := accepted.all (fun tx => cenv.receiptStatus tx == 1)
      (sendEvs ++ Event.awaitFundingReceipt bundle.fundingTx ::
         accepted.map Event.awaitTransferReceipt,
       .ok { fundingHash := cenv.txHash bundle.fundingTx
             transferHashes := accepted.map cenv.txHash
             success := allSuccess
             attempts := attempt
             error :=
               if allSuccess then none
               else some "One or more transfer transactions reverted" })

/-- `submitTransfersOnly` (base-utils.ts lines 471-541): the same transfer
fan-out and classification as `attemptSubmission`, against an already
confirmed funding hash; `attempts` is fixed at 1 by the source. -/
def submitTransfersOnly (cenv : ChainEnv) (fundingHash : String)
    (signedTransferTxs : List TxRequest) (nPrivate : ℕ) :
    List Event × RescueResult :=
  let sendEvs :=
    (signedTransferTxs.map (fun tx => sendChunk nPrivate (cenv.accepts tx) tx)).flatten
  let accepted := signedTransferTxs.filter cenv.accepts
  if accepted.isEmpty then
    (sendEvs,
     { fundingHash := fundingHash
       transferHashes := []
       success := false
       attempts := 1
       error := some "All transfer transactions failed to submit" })
  else
    let allSuccess := accepted.all (fun tx => cenv.receiptStatus tx == 1)
    (sendEvs ++ accepted.map Event.awaitTransferReceipt,
     { fundingHash := fundingHash
       transferHashes := accepted.map cenv.txHash
       success := allSuccess
       attempts := 1
       error :=
         if allSuccess then none
         else some "One or more transfer transactions reverted" })

/-- `bundle.gasPrice.mul(GAS_ESCALATION_FACTOR).div(100)` (base-utils.ts
lines 292-294): `BigNumber` multiplication then integer (floor) division. -/
def escalateGas (gasPrice : ℚ) : ℚ :=
  ((⌊gasPrice * (GAS_ESCALATION_FACTOR : ℚ) / 100⌋ : ℤ) : ℚ)

/-- The funded fast path of `submitRescueBundle` (base-utils.ts lines
285-307): re-sign only the transfers with the escalated gas price against the
freshly queried pending nonce and submit them through `submitTransfersOnly`;
the signing events of the re-signed transfers are recorded. -/
def fundedFastPath (cenv : ChainEnv) (bundle : SignedRescueBundle)
    (calls : List TokenTransferTx) (priorityFeeGwei : ℚ)
    (fundingHash : String) (nPrivate : ℕ) : List Event × RescueResult :=
  let priorityFee := parseUnitsGwei priorityFeeGwei
  let escalatedGas := escalateGas bundle.gasPrice
  let fresh :=
    (resignTransferTxs bundle.executorAddress calls escalatedGas priorityFee
      cenv.fastNonce cenv.chainId).1
  let sub := submitTransfersOnly cenv fundingHash fresh nPrivate
  (fresh.map Event.signTx ++ sub.1, sub.2)

/-- What the retry controller does after a non-thrown, unsuccessful attempt:
either the attempt succeeded (`done` with `attempts := attempt`), or funding
landed (`balance ≥ totalGasCost`) with attempts left, in which case the
funded fast path runs and its success returns `attempts := attempt + 1`;
otherwise the loop continues carrying the latest error (base-utils.ts lines
272-312). -/
inductive StepOut where
  | done (r : RescueResult)
  | next (lastError : Option String)
deriving DecidableEq

/-- Lines 272-312 of base-utils.ts: success return, funded fast path, or
fall-through to the next attempt. -/
def afterSubmission (cenv : ChainEnv) (calls : List TokenTransferTx)
    (priorityFeeGwei : ℚ) (nPrivate attempt : ℕ)
    (bundle : SignedRescueBundle) (res : RescueResult) :
    List Event × StepOut :=
  if res.success then ([], .done { res with attempts := attempt })
  else
    if cenv.balance ≥ bundle.totalGasCost ∧ attempt < MAX_RETRY_ATTEMPTS then
      let fast := fundedFastPath cenv bundle calls priorityFeeGwei res.fundingHash nPrivate
      if fast.2.success then (fast.1, .done { fast.2 with attempts := attempt + 1 })
      else (fast.1, .next fast.2.error)
    else ([], .next res.error)

/-- `Math.round(gasFactor * (GAS_ESCALATION_FACTOR / 100))` (base-utils.ts
line 234) on the integer factors the loop reaches (100, 130): round half up
of `gasFactor * 1.3`. -/
def nextGasFactor (gasFactor : ℕ) : ℕ :=
  (gasFactor * GAS_ESCALATION_FACTOR + 50) / 100

/-- The re-plan of a retry attempt (base-utils.ts lines 244-253): a fresh
`signRescueBundle` whose max-fee input is the previous bundle's gas price
converted back to gwei (`parseFloat(utils.formatUnits(bundle.gasPrice,
"gwei"))`, idealized to exact division) and whose gas factor is the updated
running factor. -/
def replanBundle (env : PlanEnv) (sponsorAddress executorAddress : String)
    (calls : List TokenTransferTx) (priorityFeeGwei : ℚ)
    (executorIsContract : Bool) (bundle : SignedRescueBundle)
    (gasFactor : ℕ) : SignedRescueBundle :=
  signRescueBundle env sponsorAddress executorAddress calls priorityFeeGwei
    (bundle.gasPrice / GWEI) executorIsContract (gasFactor : ℚ)

/-- Per-attempt chain state for the retry loop: the state the re-plan reads
and the state the submission attempt reads. -/
structure AttemptEnv where
  plan : PlanEnv
  chain : ChainEnv

/-- The retry loop of `submitRescueBundle` (base-utils.ts lines 229-326),
structurally recursive on the remaining attempt budget (`fuel`).  At
`attempt > 1` the running gas factor is escalated and the bundle re-planned;
a thrown submission error or an unsuccessful step falls through to the next
attempt; exhaustion returns the failure record with
`attempts = MAX_RETRY_ATTEMPTS`. -/
def runAttempts (envs : ℕ → AttemptEnv) (sponsorAddress executorAddress : String)
    (calls : List TokenTransferTx) (priorityFeeGwei : ℚ)
    (executorIsContract : Bool) (nPrivate : ℕ) :
    ℕ → ℕ → ℕ → SignedRescueBundle → Option String →
      List Event × RescueResult
  | 0, _, _, _, lastErr =>
      ([], { fundingHash := ""
             transferHashes := []
             success := false
             attempts := MAX_RETRY_ATTEMPTS
             error := lastErr })
  | fuel + 1, attempt, gasFactor0, bundle0, _lastError =>
      let gasFactor := if 1 < attempt then nextGasFactor gasFactor0 else gasFactor0
      let bundle :=
        if 1 < attempt then
          replanBundle (envs attempt).plan sponsorAddress executorAddress calls
            priorityFeeGwei executorIsContract bundle0 gasFactor
        else bundle0
      let replanEvs :=
        if 1 < attempt then
          Event.signTx bundle.fundingTx :: bundle.transferTxs.map Event.signTx
        else []
      match attemptSubmission (envs attempt).chain bundle calls priorityFeeGwei
          attempt nPrivate with
      | (evs, .error msg) =>
          let rest := runAttempts envs sponsorAddress executorAddress calls
            priorityFeeGwei executorIsContract nPrivate fuel (attempt + 1)
            gasFactor bundle (some msg)
          (replanEvs ++ evs ++ rest.1, rest.2)
      | (evs, .ok res) =>
          match afterSubmission (envs attempt).chain calls priorityFeeGwei
              nPrivate attempt bundle res with
          | (fEvs, .done r) => (replanEvs ++ evs ++ fEvs, r)
          | (fEvs, .next lastError2) =>
              let rest := runAttempts envs sponsorAddress executorAddress calls
                priorityFeeGwei executorIsContract nPrivate fuel (attempt + 1)
                gasFactor bundle lastError2
              (replanEvs ++ evs ++ fEvs ++ rest.1, rest.2)

/-- `submitRescueBundle` (base-utils.ts lines 219-326): the retry loop
started at attempt 1 with gas factor 100 and no recorded error. -/
def submitRescueBundle (envs : ℕ → AttemptEnv)
    (sponsorAddress executorAddress : String) (calls : List TokenTransferTx)
    (priorityFeeGwei : ℚ) (executorIsContract : Bool) (nPrivate : ℕ)
    (bundle : SignedRescueBundle) : List Event × RescueResult :=
  runAttempts envs sponsorAddress executorAddress calls priorityFeeGwei
    executorIsContract nPrivate MAX_RETRY_ATTEMPTS 1 100 bundle none

lemma foldl_gasLimit (calls : List TokenTransferTx) (a : ℚ) :
    calls.foldl (fun acc tx => acc + tx.gasLimit) a
      = a + (calls.map TokenTransferTx.gasLimit).sum := by
  induction calls generalizing a with
  | nil => simp
  | cons call rest ih => simp [ih, add_assoc]

lemma effectiveMaxFee_eq_max (b p m : ℚ) :
    effectiveMaxFee b p m = max m (b * 2 + p) := by
  unfold effectiveMaxFee
  rcases le_or_lt (b * 2 + p) m with h | h
  · rw [if_neg (by exact not_lt.mpr h), max_eq_left h]
  · rw [if_pos h, max_eq_right (le_of_lt h)]

lemma gasPrice_signRescueBundle (env : PlanEnv) (sa ea : String)
    (calls : List TokenTransferTx) (pg mg : ℚ) (isC : Bool) (gf : ℚ) :
    (signRescueBundle env sa ea calls pg mg isC gf).gasPrice
      = effectiveMaxFee env.baseFeePerGas (parseUnitsGwei pg)
          (parseUnitsGwei (cappedMaxFeeGwei mg gf)) := rfl

/-- Claim C1: for every bundle produced by `signRescueBundle` over a
non-empty transfer-call list of length N, the executor-signed transfer
transactions carry the sequential nonces e, e+1, ..., e+N-1 in input order
(where e is the executor pending nonce observed at planning time), and the
funding transaction carries the sponsor pending nonce observed at planning
time. -/
theorem claim_C1 (env : PlanEnv) (sa ea : String) (calls : List TokenTransferTx)
    (pg mg : ℚ) (isC : Bool) (gf : ℚ) (_hne : calls ≠ []) :
    (signRescueBundle env sa ea calls pg mg isC gf).transferTxs.length = calls.length ∧
    (∀ i, i < calls.length →
      ((signRescueBundle env sa ea calls pg mg isC gf).transferTxs.get? i).map
          TxRequest.nonce
        = some (env.executorNonce + i)) ∧
    (signRescueBundle env sa ea calls pg mg isC gf).fundingTx.nonce = env.sponsorNonce := by
  refine ⟨signTransferTxs_length _ _ _ _ _ _, fun i hi => ?_, rfl⟩
  show ((signTransferTxs ea calls _ _ env.executorNonce env.chainId).get? i).map
      TxRequest.nonce = _
  rw [signTransferTxs_get?]
  rcases List.get?_eq_get hi with h
  rw [h]
  rfl

/-- Witness for C1 at the S1 scenario: one transfer call, executor pending
nonce 0, sponsor pending nonce 5. -/
theorem claim_C1_witness :
    (signRescueBundle ⟨2 * 10 ^ 7, 5, 0, 8453⟩ "S" "E"
        [⟨"T", "d", 65000⟩] (1/2) 2 false 100).transferTxs.length
      = [(⟨"T", "d", 65000⟩ : TokenTransferTx)].length ∧
    (∀ i, i < [(⟨"T", "d", 65000⟩ : TokenTransferTx)].length →
      ((signRescueBundle ⟨2 * 10 ^ 7, 5, 0, 8453⟩ "S" "E"
          [⟨"T", "d", 65000⟩] (1/2) 2 false 100).transferTxs.get? i).map
          TxRequest.nonce
        = some ((⟨2 * 10 ^ 7, 5, 0, 8453⟩ : PlanEnv).executorNonce + i)) ∧
    (signRescueBundle ⟨2 * 10 ^ 7, 5, 0, 8453⟩ "S" "E"
        [⟨"T", "d", 65000⟩] (1/2) 2 false 100).fundingTx.nonce
      = (⟨2 * 10 ^ 7, 5, 0, 8453⟩ : PlanEnv).sponsorNonce :=
  claim_C1 ⟨2 * 10 ^ 7, 5, 0, 8453⟩ "S" "E" [⟨"T", "d", 65000⟩] (1/2) 2 false 100
    (by simp)

/-- Claim C2: the effective max fee of every planning run equals
`max(capped_max_fee, base_fee * 2 + priority_fee)` with
`capped_max_fee = min(max_fee_gwei * gas_factor / 100, 10 gwei)`; in
particular it is at least `base_fee * 2 + priority_fee`, and it is the
`maxFeePerGas` of every transaction of the bundle (funding and transfers). -/
theorem claim_C2 (env : PlanEnv) (sa ea : String) (calls : List TokenTransferTx)
    (pg mg : ℚ) (isC : Bool) (gf : ℚ) :
    (signRescueBundle env sa ea calls pg mg isC gf).gasPrice
      = max (parseUnitsGwei (min (mg * gf / 100) MAX_FEE_CAP_GWEI))
          (env.baseFeePerGas * 2 + parseUnitsGwei pg) ∧
    env.baseFeePerGas * 2 + parseUnitsGwei pg
      ≤ (signRescueBundle env sa ea calls pg mg isC gf).gasPrice ∧
    (signRescueBundle env sa ea calls pg mg isC gf).fundingTx.maxFeePerGas
      = (signRescueBundle env sa ea calls pg mg isC gf).gasPrice ∧
    (∀ tx ∈ (signRescueBundle env sa ea calls pg mg isC gf).transferTxs,
      tx.maxFeePerGas = (signRescueBundle env sa ea calls pg mg isC gf).gasPrice) := by
  have hmax : (signRescueBundle env sa ea calls pg mg isC gf).gasPrice
      = max (parseUnitsGwei (min (mg * gf / 100) MAX_FEE_CAP_GWEI))
          (env.baseFeePerGas * 2 + parseUnitsGwei pg) := by
    rw [gasPrice_signRescueBundle, effectiveMaxFee_eq_max]; rfl
  refine ⟨hmax, ?_, rfl, fun tx htx => ?_⟩
  · rw [hmax]; exact le_max_right _ _
  · exact (mem_signTransferTxs htx).2.1

/-- Witness for C2 at the S1 scenario inputs. -/
theorem claim_C2_witness :
    (signRescueBundle ⟨2 * 10 ^ 7, 5, 0, 8453⟩ "S" "E"
        [⟨"T", "d", 65000⟩] (1/2) 2 false 100).gasPrice
      = max (parseUnitsGwei (min ((2 : ℚ) * 100 / 100) MAX_FEE_CAP_GWEI))
          ((⟨2 * 10 ^ 7, 5, 0, 8453⟩ : PlanEnv).baseFeePerGas * 2 + parseUnitsGwei (1/2)) ∧
    (⟨2 * 10 ^ 7, 5, 0, 8453⟩ : PlanEnv).baseFeePerGas * 2 + parseUnitsGwei (1/2)
      ≤ (signRescueBundle ⟨2 * 10 ^ 7, 5, 0, 8453⟩ "S" "E"
          [⟨"T", "d", 65000⟩] (1/2) 2 false 100).gasPrice ∧
    (signRescueBundle ⟨2 * 10 ^ 7, 5, 0, 8453⟩ "S" "E"
        [⟨"T", "d", 65000⟩] (1/2) 2 false 100).fundingTx.maxFeePerGas
      = (signRescueBundle ⟨2 * 10 ^ 7, 5, 0, 8453⟩ "S" "E"
          [⟨"T", "d", 65000⟩] (1/2) 2 false 100).gasPrice ∧
    (∀ tx ∈ (signRescueBundle ⟨2 * 10 ^ 7, 5, 0, 8453⟩ "S" "E"
        [⟨"T", "d", 65000⟩] (1/2) 2 false 100).transferTxs,
      tx.maxFeePerGas = (signRescueBundle ⟨2 * 10 ^ 7, 5, 0, 8453⟩ "S" "E"
          [⟨"T", "d", 65000⟩] (1/2) 2 false 100).gasPrice) :=
  claim_C2 ⟨2 * 10 ^ 7, 5, 0, 8453⟩ "S" "E" [⟨"T", "d", 65000⟩] (1/2) 2 false 100

/-- Claim C8: the funding transaction's value equals the sum of the transfer
calls' gas limits multiplied by the effective max fee (equality, hence
`funding_tx.value ≥ total_executor_gas_cost`), and its gas limit is 100000
when `executor_is_contract` is true and 21000 otherwise. -/
theorem claim_C8 (env : PlanEnv) (sa ea : String) (calls : List TokenTransferTx)
    (pg mg : ℚ) (isC : Bool) (gf : ℚ) :
    (signRescueBundle env sa ea calls pg mg isC gf).fundingTx.value
      = (calls.map TokenTransferTx.gasLimit).sum
          * (signRescueBundle env sa ea calls pg mg isC gf).gasPrice ∧
    (signRescueBundle env sa ea calls pg mg isC gf).fundingTx.value
      = (signRescueBundle env sa ea calls pg mg isC gf).totalGasCost ∧
    (signRescueBundle env sa ea calls pg mg isC gf).totalGasCost
      ≤ (signRescueBundle env sa ea calls pg mg isC gf).fundingTx.value ∧
    (signRescueBundle env sa ea calls pg mg isC gf).fundingTx.gasLimit
      = (if isC then 100000 else 21000) := by
  have hval : (signRescueBundle env sa ea calls pg mg isC gf).fundingTx.value
      = (calls.map TokenTransferTx.gasLimit).sum
          * (signRescueBundle env sa ea calls pg mg isC gf).gasPrice := by
    show calls.foldl (fun acc tx => acc + tx.gasLimit) 0 * _ = _
    rw [foldl_gasLimit, zero_add, gasPrice_signRescueBundle]
  exact ⟨hval, rfl, le_refl _, rfl⟩

/-- Whether an event is a receipt wait (funding or transfer). -/
def Event.isAwait : Event → Bool
  | .awaitFundingReceipt _ => true
  | .awaitTransferReceipt _ => true
  | _ => false

/-- Every occurrence of a primary submission in the trace is preceded, for
each configured private gateway, by the broadcast of the same raw
transaction to that gateway. -/
def PrivateBeforePrimary (n : ℕ) (tr : List Event) : Prop :=
  ∀ (j : ℕ) (tx : TxRequest) (b : Bool), tr[j]? = some (Event.primarySend tx b) →
    ∀ g, g < n → ∃ i, i < j ∧ tr[i]? = some (Event.privateSend g tx)

/-- Every primary submission of a transfer transaction of the bundle comes
strictly after a primary submission of the funding transaction. -/
def FundingBeforeTransfers (fund : TxRequest) (transfers : List TxRequest)
    (tr : List Event) : Prop :=
  ∀ (j : ℕ) (tx : TxRequest) (b : Bool), tr[j]? = some (Event.primarySend tx b) →
    tx ∈ transfers →
    ∃ i, i < j ∧ ∃ b2, tr[i]? = some (Event.primarySend fund b2)

/-- Every transaction submitted to the primary is also broadcast, with the
same raw bytes, to each of the `n` configured private gateways. -/
def PrivatesCover (n : ℕ) (tr : List Event) : Prop :=
  ∀ tx b, Event.primarySend tx b ∈ tr → ∀ g, g < n → Event.privateSend g tx ∈ tr

lemma privateBeforePrimary_append {n : ℕ} {l1 l2 : List Event}
    (h1 : PrivateBeforePrimary n l1) (h2 : PrivateBeforePrimary n l2) :
    PrivateBeforePrimary n (l1 ++ l2) := by
  intro j tx b hj g hg
  by_cases hlt : j < l1.length
  · rw [List.getElem?_append_left hlt] at hj
    obtain ⟨i, hij, hi⟩ := h1 j tx b hj g hg
    exact ⟨i, hij, by rw [List.getElem?_append_left (hij.trans hlt)]; exact hi⟩
  · push_neg at hlt
    rw [List.getElem?_append_right hlt] at hj
    obtain ⟨i, hij, hi⟩ := h2 (j - l1.length) tx b hj g hg
    refine ⟨l1.length + i, by omega, ?_⟩
    rw [List.getElem?_append_right (by omega)]
    have he : l1.length + i - l1.length = i := by omega
    rw [he]; exact hi

lemma privateBeforePrimary_of_no_primary {n : ℕ} {l : List Event}
    (h : ∀ e ∈ l, ∀ tx b, e ≠ Event.primarySend tx b) :
    PrivateBeforePrimary n l := by
  intro j tx b hj g _
  exact absurd rfl (h _ (List.getElem?_mem hj) tx b)

lemma length_broadcast (tx : TxRequest) (n : ℕ) :
    (broadcastToPrivateProviders tx n).length = n := by
  simp [broadcastToPrivateProviders]

lemma broadcast_getElem? (tx : TxRequest) (n g : ℕ) (hg : g < n) :
    (broadcastToPrivateProviders tx n)[g]? = some (Event.privateSend g tx) := by
  simp [broadcastToPrivateProviders, List.getElem?_range hg]

lemma mem_broadcast {tx : TxRequest} {n : ℕ} {e : Event}
    (h : e ∈ broadcastToPrivateProviders tx n) :
    ∃ g, g < n ∧ e = Event.privateSend g tx := by
  simp only [broadcastToPrivateProviders, List.mem_map, List.mem_range] at h
  obtain ⟨g, hg, he⟩ := h
  exact ⟨g, hg, he.symm⟩

lemma privateBeforePrimary_sendChunk (n : ℕ) (acc : Bool) (tx : TxRequest) :
    PrivateBeforePrimary n (sendChunk n acc tx) := by
  intro j tx' b hj g hg
  unfold sendChunk at hj
  by_cases hlt : j < (broadcastToPrivateProviders tx n).length
  · rw [List.getElem?_append_left hlt] at hj
    have := mem_broadcast (List.getElem?_mem hj)
    obtain ⟨g2, _, he⟩ := this
    exact absurd he (by simp)
  · push_neg at hlt
    rw [List.getElem?_append_right hlt, length_broadcast] at hj
    rw [length_broadcast] at hlt
    have hjn : j = n := by
      rcases Nat.lt_or_ge (j - n) 1 with h1 | h1
      · omega
      · rw [List.getElem?_eq_none (by simpa using h1)] at hj; cases hj
    subst hjn
    simp only [Nat.sub_self, List.getElem?_cons_zero, Option.some.injEq] at hj
    cases hj
    refine ⟨g, hg, ?_⟩
    unfold sendChunk
    rw [List.getElem?_append_left (by rw [length_broadcast]; exact hg)]
    exact broadcast_getElem? _ _ _ hg

lemma privateBeforePrimary_flatten {n : ℕ} {cs : List (List Event)}
    (h : ∀ c ∈ cs, PrivateBeforePrimary n c) :
    PrivateBeforePrimary n cs.flatten := by
  induction cs with
  | nil => intro j tx b hj g hg; simp at hj
  | cons c rest ih =>
      rw [List.flatten_cons]
      exact privateBeforePrimary_append (h c (List.mem_cons_self c rest))
        (ih (fun c2 hc2 => h c2 (List.mem_cons_of_mem c hc2)))

lemma fundingBeforeTransfers_decomp {fund : TxRequest} {transfers : List TxRequest}
    {xs ys : List Event} (acc : Bool)
    (hxs : ∀ e ∈ xs, ∀ tx b, e ≠ Event.primarySend tx b)
    (hfund : fund ∉ transfers) :
    FundingBeforeTransfers fund transfers (xs ++ Event.primarySend fund acc :: ys) := by
  intro j tx b hj htx
  have hxlen : ¬ j < xs.length := by
    intro hlt
    rw [List.getElem?_append_left hlt] at hj
    exact hxs _ (List.getElem?_mem hj) tx b rfl
  push_neg at hxlen
  rcases Nat.eq_or_lt_of_le hxlen with heq | hlt
  · rw [List.getElem?_append_right hxlen, ← heq, Nat.sub_self,
      List.getElem?_cons_zero, Option.some.injEq] at hj
    cases hj
    exact absurd htx hfund
  · refine ⟨xs.length, hlt, acc, ?_⟩
    rw [List.getElem?_append_right (le_refl _), Nat.sub_self, List.getElem?_cons_zero]

lemma privatesCover_of_privateBeforePrimary {n : ℕ} {tr : List Event}
    (h : PrivateBeforePrimary n tr) : PrivatesCover n tr := by
  intro tx b hmem g hg
  obtain ⟨j, hj⟩ := List.getElem?_of_mem hmem
  obtain ⟨i, _, hi⟩ := h j tx b hj g hg
  exact List.getElem?_mem hi

lemma guardedBundle_fundingTx (cenv : ChainEnv) (bundle : SignedRescueBundle)
    (calls : List TokenTransferTx) (pg : ℚ) :
    (guardedBundle cenv bundle calls pg).fundingTx = bundle.fundingTx := by
  unfold guardedBundle; split <;> rfl

lemma mem_guardEvents {cenv : ChainEnv} {bundle : SignedRescueBundle}
    {calls : List TokenTransferTx} {pg : ℚ} {e : Event}
    (h : e ∈ guardEvents cenv bundle calls pg) :
    ∃ tx, e = Event.signTx tx := by
  unfold guardEvents at h
  split at h
  · simp at h
  · obtain ⟨tx, _, he⟩ := List.mem_map.1 h
    exact ⟨tx, he.symm⟩

lemma mem_sendChunk {e : Event} {n : ℕ} {acc : Bool} {tx : TxRequest}
    (h : e ∈ sendChunk n acc tx) :
    (∃ g, g < n ∧ e = Event.privateSend g tx) ∨ e = Event.primarySend tx acc := by
  unfold sendChunk at h
  rcases List.mem_append.1 h with h | h
  · exact Or.inl (mem_broadcast h)
  · simp at h; exact Or.inr h

lemma mem_transferChunks {n : ℕ} {f : TxRequest → Bool} {txs : List TxRequest}
    {e : Event} (h : e ∈ (txs.map (fun tx => sendChunk n (f tx) tx)).flatten) :
    ∃ tx ∈ txs, e ∈ sendChunk n (f tx) tx := by
  obtain ⟨c, hc, hec⟩ := List.mem_flatten.1 h
  obtain ⟨tx, htx, rfl⟩ := List.mem_map.1 hc
  exact ⟨tx, htx, hec⟩

lemma privateBeforePrimary_transferChunks (n : ℕ) (f : TxRequest → Bool)
    (txs : List TxRequest) :
    PrivateBeforePrimary n ((txs.map (fun tx => sendChunk n (f tx) tx)).flatten) := by
  refine privateBeforePrimary_flatten ?_
  intro c hc
  obtain ⟨tx, _, rfl⟩ := List.mem_map.1 hc
  exact privateBeforePrimary_sendChunk n (f tx) tx

lemma append_reassoc_cons (xs bc tail : List Event) (prim : Event) :
    xs ++ ((bc ++ [prim]) ++ tail) = (xs ++ bc) ++ prim :: tail := by
  simp [List.append_assoc]

/-- The trace of `attemptSubmission` decomposes as: guard signing events,
private broadcasts of the funding transaction, the primary submission of the
funding transaction, then a tail in which every primary submission is of a
bundle transfer transaction and is preceded by its own private broadcasts. -/
lemma attemptSubmission_trace (cenv : ChainEnv) (bundle0 : SignedRescueBundle)
    (calls : List TokenTransferTx) (pg : ℚ) (attempt nPrivate : ℕ) :
    ∃ tail : List Event,
      (attemptSubmission cenv bundle0 calls pg attempt nPrivate).1
        = guardEvents cenv bundle0 calls pg
            ++ (sendChunk nPrivate
                  (cenv.accepts (guardedBundle cenv bundle0 calls pg).fundingTx)
                  (guardedBundle cenv bundle0 calls pg).fundingTx
                ++ tail)
      ∧ PrivateBeforePrimary nPrivate tail
      ∧ (∀ e ∈ tail, ∀ tx b, e = Event.primarySend tx b →
           tx ∈ (guardedBundle cenv bundle0 calls pg).transferTxs) := by
  simp only [attemptSubmission]
  by_cases hacc :
      cenv.accepts (guardedBundle cenv bundle0 calls pg).fundingTx = false
  · refine ⟨[], ?_, ?_, ?_⟩
    · rw [if_pos hacc]; simp
    · intro j tx b hj; simp at hj
    · intro e he; simp at he
  · rw [if_neg hacc]
    by_cases hemp :
        ((guardedBundle cenv bundle0 calls pg).transferTxs.filter cenv.accepts).isEmpty
    · refine ⟨((guardedBundle cenv bundle0 calls pg).transferTxs.map
          (fun tx => sendChunk nPrivate (cenv.accepts tx) tx)).flatten, ?_, ?_, ?_⟩
      · rw [if_pos hemp]; simp [List.append_assoc]
      · exact privateBeforePrimary_transferChunks _ _ _
      · intro e he tx b hetx
        obtain ⟨tx2, htx2, hec⟩ := mem_transferChunks he
        rcases mem_sendChunk hec with ⟨g, _, hpe⟩ | hpe
        · rw [hetx] at hpe; cases hpe
        · rw [hetx] at hpe
          cases hpe
          exact htx2
    · refine ⟨((guardedBundle cenv bundle0 calls pg).transferTxs.map
          (fun tx => sendChunk nPrivate (cenv.accepts tx) tx)).flatten
          ++ (Event.awaitFundingReceipt (guardedBundle cenv bundle0 calls pg).fundingTx ::
              ((guardedBundle cenv bundle0 calls pg).transferTxs.filter cenv.accepts).map
                Event.awaitTransferReceipt), ?_, ?_, ?_⟩
      · rw [if_neg hemp]; simp [List.append_assoc]
      · refine privateBeforePrimary_append (privateBeforePrimary_transferChunks _ _ _) ?_
        refine privateBeforePrimary_of_no_primary ?_
        intro e he tx b
        rcases List.mem_cons.1 he with he | he
        · subst he; simp
        · obtain ⟨tx2, _, he2⟩ := List.mem_map.1 he
          subst he2; simp
      · intro e he tx b hetx
        rcases List.mem_append.1 he with he | he
        · obtain ⟨tx2, htx2, hec⟩ := mem_transferChunks he
          rcases mem_sendChunk hec with ⟨g, _, hpe⟩ | hpe
          · rw [hetx] at hpe; cases hpe
          · rw [hetx] at hpe; cases hpe; exact htx2
        · exfalso
          rcases List.mem_cons.1 he with he | he
          · rw [hetx] at he; cases he
          · obtain ⟨tx2, _, he2⟩ := List.mem_map.1 he
            rw [hetx] at he2; cases he2

lemma no_primary_in_preamble {cenv : ChainEnv} {bundle0 : SignedRescueBundle}
    {calls : List TokenTransferTx} {pg : ℚ} {nPrivate : ℕ} :
    ∀ e ∈ guardEvents cenv bundle0 calls pg
        ++ broadcastToPrivateProviders (guardedBundle cenv bundle0 calls pg).fundingTx
             nPrivate,
      ∀ tx b, e ≠ Event.primarySend tx b := by
  intro e he tx b
  rcases List.mem_append.1 he with he | he
  · obtain ⟨tx2, he2⟩ := mem_guardEvents he
    subst he2; simp
  · obtain ⟨g, _, he2⟩ := mem_broadcast he
    subst he2; simp

/-- Claim C3: in every submission attempt, the primary gateway receives the
funding transaction strictly before any transfer transaction; every
transaction submitted to the primary is also broadcast, with the same raw
bytes, to each configured private gateway; and each private-gateway
broadcast is issued before the corresponding primary submission of the same
transaction.  The hypotheses rule out the degenerate bundle whose funding
transaction is literally one of its transfer transactions (planner bundles
satisfy both: the funding transaction is sponsor-signed). -/
theorem claim_C3 (cenv : ChainEnv) (bundle0 : SignedRescueBundle)
    (calls : List TokenTransferTx) (pg : ℚ) (attempt nPrivate : ℕ)
    (h1 : bundle0.fundingTx ∉ bundle0.transferTxs)
    (h2 : bundle0.fundingTx.signer ≠ bundle0.executorAddress) :
    FundingBeforeTransfers bundle0.fundingTx
        (guardedBundle cenv bundle0 calls pg).transferTxs
        (attemptSubmission cenv bundle0 calls pg attempt nPrivate).1 ∧
    PrivatesCover nPrivate (attemptSubmission cenv bundle0 calls pg attempt nPrivate).1 ∧
    PrivateBeforePrimary nPrivate
        (attemptSubmission cenv bundle0 calls pg attempt nPrivate).1 := by
  obtain ⟨tail, htr, hpbp, _⟩ :=
    attemptSubmission_trace cenv bundle0 calls pg attempt nPrivate
  have hfund : (guardedBundle cenv bundle0 calls pg).fundingTx = bundle0.fundingTx :=
    guardedBundle_fundingTx cenv bundle0 calls pg
  have hnotmem : bundle0.fundingTx ∉ (guardedBundle cenv bundle0 calls pg).transferTxs := by
    unfold guardedBundle
    split
    · exact h1
    · intro hmem
      exact h2 (mem_signTransferTxs hmem).1
  have hPBP : PrivateBeforePrimary nPrivate
      (attemptSubmission cenv bundle0 calls pg attempt nPrivate).1 := by
    rw [htr]
    refine privateBeforePrimary_append ?_ (privateBeforePrimary_append ?_ hpbp)
    · refine privateBeforePrimary_of_no_primary ?_
      intro e he tx b
      obtain ⟨tx2, he2⟩ := mem_guardEvents he
      subst he2; simp
    · exact privateBeforePrimary_sendChunk _ _ _
  refine ⟨?_, privatesCover_of_privateBeforePrimary hPBP, hPBP⟩
  rw [htr]
  unfold sendChunk
  rw [hfund, append_reassoc_cons]
  exact fundingBeforeTransfers_decomp _
    (by rw [← hfund]; exact no_primary_in_preamble) hnotmem

/-- Claim C10: when the primary accepts the funding transaction but refuses
every transfer submission, the attempt returns immediately with
`success = false`, the error `All transfer transactions failed to submit`,
the funding transaction's hash and an empty transfer-hash list, without
awaiting any receipt — although the funding transaction was already
submitted to the primary and broadcast to every private gateway. -/
theorem claim_C10 (cenv : ChainEnv) (bundle0 : SignedRescueBundle)
    (calls : List TokenTransferTx) (pg : ℚ) (attempt nPrivate : ℕ)
    (hfund : cenv.accepts bundle0.fundingTx = true)
    (hall : ∀ tx ∈ (guardedBundle cenv bundle0 calls pg).transferTxs,
      cenv.accepts tx = false) :
    (attemptSubmission cenv bundle0 calls pg attempt nPrivate).2
      = .ok { fundingHash := cenv.txHash bundle0.fundingTx
              transferHashes := []
              success := false
              attempts := attempt
              error := some "All transfer transactions failed to submit" } ∧
    (∀ e ∈ (attemptSubmission cenv bundle0 calls pg attempt nPrivate).1,
      Event.isAwait e = false) ∧
    Event.primarySend bundle0.fundingTx true
      ∈ (attemptSubmission cenv bundle0 calls pg attempt nPrivate).1 ∧
    (∀ g, g < nPrivate → Event.privateSend g bundle0.fundingTx
      ∈ (attemptSubmission cenv bundle0 calls pg attempt nPrivate).1) := by
  have hgf : (guardedBundle cenv bundle0 calls pg).fundingTx = bundle0.fundingTx :=
    guardedBundle_fundingTx cenv bundle0 calls pg
  have hacc : ¬ cenv.accepts (guardedBundle cenv bundle0 calls pg).fundingTx = false := by
    rw [hgf, hfund]; simp
  have hemp : ((guardedBundle cenv bundle0 calls pg).transferTxs.filter
      cenv.accepts).isEmpty := by
    rw [List.isEmpty_iff, List.filter_eq_nil_iff]
    intro tx htx
    rw [hall tx htx]; simp
  constructor
  · simp only [attemptSubmission]
    rw [if_neg hacc, if_pos hemp, hgf]
  · have htrace : (attemptSubmission cenv bundle0 calls pg attempt nPrivate).1
        = guardEvents cenv bundle0 calls pg
            ++ (sendChunk nPrivate
                  (cenv.accepts (guardedBundle cenv bundle0 calls pg).fundingTx)
                  (guardedBundle cenv bundle0 calls pg).fundingTx
                ++ ((guardedBundle cenv bundle0 calls pg).transferTxs.map
                    (fun tx => sendChunk nPrivate (cenv.accepts tx) tx)).flatten) := by
      simp only [attemptSubmission]
      rw [if_neg hacc, if_pos hemp]
      simp [List.append_assoc]
    refine ⟨?_, ?_, ?_⟩
    · intro e he
      rw [htrace] at he
      rcases List.mem_append.1 he with he | he
      · obtain ⟨tx2, he2⟩ := mem_guardEvents he
        subst he2; rfl
      · rcases List.mem_append.1 he with he | he
        · rcases mem_sendChunk he with ⟨g, _, he2⟩ | he2 <;> (subst he2; rfl)
        · obtain ⟨tx2, _, hec⟩ := mem_transferChunks he
          rcases mem_sendChunk hec with ⟨g, _, he2⟩ | he2 <;> (subst he2; rfl)
    · rw [htrace]
      refine List.mem_append.2 (Or.inr (List.mem_append.2 (Or.inl ?_)))
      unfold sendChunk
      refine List.mem_append.2 (Or.inr ?_)
      rw [hgf, hfund]
      exact List.mem_singleton.2 rfl
    · intro g hg
      rw [htrace]
      refine List.mem_append.2 (Or.inr (List.mem_append.2 (Or.inl ?_)))
      unfold sendChunk
      refine List.mem_append.2 (Or.inl ?_)
      rw [hgf]
      exact List.getElem?_mem (broadcast_getElem? _ _ _ hg)

/-- S1-style fixture: base fee 0.02 gwei, sponsor pending nonce 5, executor
pending nonce 0, Base chain id. -/
def penvW : PlanEnv := ⟨2 * 10 ^ 7, 5, 0, 8453⟩

/-- One-call fixture list. -/
def callsW : List TokenTransferTx := [⟨"T", "d", 65000⟩]

/-- Fixture bundle planned from `penvW`. -/
def bundleW : SignedRescueBundle := signRescueBundle penvW "S" "E" callsW (1/2) 2 false 100

/-- Fixture chain state: clean nonce guard, everything accepted, all
receipts status 1. -/
def cenvW : ChainEnv := ⟨0, 0, 0, 8453, fun _ => true, fun _ => "H", fun _ => 1, 0⟩

/-- Fixture chain state refusing every executor-signed submission: only the
sponsor-signed funding transaction is accepted by the primary pool. -/
def cenvRefuse : ChainEnv :=
  ⟨0, 0, 0, 8453, fun tx => tx.signer == "S", fun _ => "H", fun _ => 1, 0⟩

lemma bundleW_fundingTx_signer : bundleW.fundingTx.signer = "S" := rfl

lemma bundleW_transferTxs :
    bundleW.transferTxs
      = [mkTransferTx "E" (2 * 10 ^ 9) (5 * 10 ^ 8) 8453 ⟨"T", "d", 65000⟩ 0] := by
  show signTransferTxs "E" callsW _ _ 0 8453 = _
  simp only [callsW, signTransferTxs]
  norm_num [signRescueBundle, penvW, effectiveMaxFee, parseUnitsGwei, cappedMaxFeeGwei,
    GWEI, MAX_FEE_CAP_GWEI]

lemma bundleW_fundingTx_notmem : bundleW.fundingTx ∉ bundleW.transferTxs := by
  rw [bundleW_transferTxs]
  intro h
  have h2 := List.mem_singleton.1 h
  have h3 : bundleW.fundingTx.signer = "E" := by rw [h2]; rfl
  rw [bundleW_fundingTx_signer] at h3
  exact absurd h3 (by decide)

/-- Witness for C3 at the fixture attempt (one transfer, one private
gateway). -/
theorem claim_C3_witness :
    FundingBeforeTransfers bundleW.fundingTx
        (guardedBundle cenvW bundleW callsW (1/2)).transferTxs
        (attemptSubmission cenvW bundleW callsW (1/2) 1 1).1 ∧
    PrivatesCover 1 (attemptSubmission cenvW bundleW callsW (1/2) 1 1).1 ∧
    PrivateBeforePrimary 1 (attemptSubmission cenvW bundleW callsW (1/2) 1 1).1 :=
  claim_C3 cenvW bundleW callsW (1/2) 1 1 bundleW_fundingTx_notmem (by decide)

/-- Witness for C10: every transfer submission refused, funding accepted. -/
theorem claim_C10_witness :
    (attemptSubmission cenvRefuse bundleW callsW (1/2) 1 1).2
      = .ok { fundingHash := cenvRefuse.txHash bundleW.fundingTx
              transferHashes := []
              success := false
              attempts := 1
              error := some "All transfer transactions failed to submit" } ∧
    (∀ e ∈ (attemptSubmission cenvRefuse bundleW callsW (1/2) 1 1).1,
      Event.isAwait e = false) ∧
    Event.primarySend bundleW.fundingTx true
      ∈ (attemptSubmission cenvRefuse bundleW callsW (1/2) 1 1).1 ∧
    (∀ g, g < 1 → Event.privateSend g bundleW.fundingTx
      ∈ (attemptSubmission cenvRefuse bundleW callsW (1/2) 1 1).1) :=
  claim_C10 cenvRefuse bundleW callsW (1/2) 1 1 rfl
    (by
      have hguard : guardedBundle cenvRefuse bundleW callsW (1/2) = bundleW := by
        unfold guardedBundle
        rw [if_pos (show cenvRefuse.guardNonce = bundleW.executorNonce from rfl)]
      rw [hguard, bundleW_transferTxs]
      intro tx htx
      rw [List.mem_singleton.1 htx]
      rfl)

/-- Claim C7: in every attempt where the re-queried executor pending nonce
differs from `bundle.executorNonce`, only the transfer transactions are
re-signed, against the current pending nonce, reusing the bundle's fee quote
(same max fee and same priority fee), and the funding transaction is left
unchanged; when the nonce is unchanged nothing is re-signed (the bundle is
untouched and no signing event is emitted). -/
theorem claim_C7 (penv : PlanEnv) (sa ea : String) (calls : List TokenTransferTx)
    (pg mg : ℚ) (isC : Bool) (gf : ℚ) (cenv : ChainEnv)
    (bundle : SignedRescueBundle)
    (hB : bundle = signRescueBundle penv sa ea calls pg mg isC gf) :
    (guardedBundle cenv bundle calls pg).fundingTx = bundle.fundingTx ∧
    (cenv.guardNonce = bundle.executorNonce →
      guardedBundle cenv bundle calls pg = bundle ∧
      guardEvents cenv bundle calls pg = []) ∧
    (cenv.guardNonce ≠ bundle.executorNonce →
      ∀ i, i < calls.length →
        ((guardedBundle cenv bundle calls pg).transferTxs.get? i).map
            TxRequest.nonce = some (cenv.resignNonce + i) ∧
        ((guardedBundle cenv bundle calls pg).transferTxs.get? i).map
            TxRequest.maxFeePerGas = some bundle.gasPrice ∧
        ((guardedBundle cenv bundle calls pg).transferTxs.get? i).map
            TxRequest.maxPriorityFeePerGas
          = some bundle.fundingTx.maxPriorityFeePerGas) := by
  refine ⟨guardedBundle_fundingTx _ _ _ _, fun h => ⟨?_, ?_⟩, fun h i hi => ?_⟩
  · unfold guardedBundle; rw [if_pos h]
  · unfold guardEvents; rw [if_pos h]
  · have htxs : (guardedBundle cenv bundle calls pg).transferTxs
        = signTransferTxs bundle.executorAddress calls bundle.gasPrice
            (parseUnitsGwei pg) cenv.resignNonce cenv.chainId := by
      unfold guardedBundle; rw [if_neg h]; rfl
    rw [htxs, signTransferTxs_get?, List.get?_eq_get hi]
    have hprio : bundle.fundingTx.maxPriorityFeePerGas = parseUnitsGwei pg := by
      rw [hB]; rfl
    rw [hprio]
    exact ⟨rfl, rfl, rfl⟩

/-- Witness for C7 at the S2 scenario: the executor pending nonce moved from
0 to 1 between planning and submission. -/
theorem claim_C7_witness :
    (guardedBundle ⟨1, 1, 0, 8453, fun _ => true, fun _ => "H", fun _ => 1, 0⟩
        bundleW callsW (1/2)).fundingTx = bundleW.fundingTx ∧
    ((⟨1, 1, 0, 8453, fun _ => true, fun _ => "H", fun _ => 1, 0⟩ : ChainEnv).guardNonce
        = bundleW.executorNonce →
      guardedBundle ⟨1, 1, 0, 8453, fun _ => true, fun _ => "H", fun _ => 1, 0⟩
          bundleW callsW (1/2) = bundleW ∧
      guardEvents ⟨1, 1, 0, 8453, fun _ => true, fun _ => "H", fun _ => 1, 0⟩
          bundleW callsW (1/2) = []) ∧
    ((⟨1, 1, 0, 8453, fun _ => true, fun _ => "H", fun _ => 1, 0⟩ : ChainEnv).guardNonce
        ≠ bundleW.executorNonce →
      ∀ i, i < callsW.length →
        ((guardedBundle ⟨1, 1, 0, 8453, fun _ => true, fun _ => "H", fun _ => 1, 0⟩
            bundleW callsW (1/2)).transferTxs.get? i).map TxRequest.nonce
          = some ((⟨1, 1, 0, 8453, fun _ => true, fun _ => "H", fun _ => 1, 0⟩
              : ChainEnv).resignNonce + i) ∧
        ((guardedBundle ⟨1, 1, 0, 8453, fun _ => true, fun _ => "H", fun _ => 1, 0⟩
            bundleW callsW (1/2)).transferTxs.get? i).map TxRequest.maxFeePerGas
          = some bundleW.gasPrice ∧
        ((guardedBundle ⟨1, 1, 0, 8453, fun _ => true, fun _ => "H", fun _ => 1, 0⟩
            bundleW callsW (1/2)).transferTxs.get? i).map
            TxRequest.maxPriorityFeePerGas
          = some bundleW.fundingTx.maxPriorityFeePerGas) :=
  claim_C7 penvW "S" "E" callsW (1/2) 2 false 100
    ⟨1, 1, 0, 8453, fun _ => true, fun _ => "H", fun _ => 1, 0⟩ bundleW rfl

/-- Claim C6 counterexample fixtures: two transfer calls, a chain that
refuses exactly the nonce-0 transfer submission and confirms everything else
with status 1. -/
def callsC6 : List TokenTransferTx := [⟨"T", "d", 65000⟩, ⟨"U", "e", 65000⟩]

/-- Plan environment for the C6 counterexample: zero base fee. -/
def penvC6 : PlanEnv := ⟨0, 5, 0, 8453⟩

/-- Bundle for the C6 counterexample. -/
def bundleC6 : SignedRescueBundle :=
  signRescueBundle penvC6 "S" "E" callsC6 (1/2) 2 false 100

/-- Chain state for the C6 counterexample: the primary refuses the
transaction with nonce 0 (the first transfer) and accepts everything else;
every awaited receipt has status 1. -/
def cenvC6 : ChainEnv :=
  ⟨0, 0, 0, 8453, fun tx => tx.nonce != 0, fun _ => "H", fun _ => 1, 0⟩

lemma bundleC6_transferTxs :
    bundleC6.transferTxs
      = [mkTransferTx "E" (2 * 10 ^ 9) (5 * 10 ^ 8) 8453 ⟨"T", "d", 65000⟩ 0,
         mkTransferTx "E" (2 * 10 ^ 9) (5 * 10 ^ 8) 8453 ⟨"U", "e", 65000⟩ 1] := by
  show signTransferTxs "E" callsC6 _ _ 0 8453 = _
  simp only [callsC6, signTransferTxs]
  norm_num [signRescueBundle, penvC6, effectiveMaxFee, parseUnitsGwei,
    cappedMaxFeeGwei, GWEI, MAX_FEE_CAP_GWEI]

/-- Counterexample to claim C6 as stated: a bundle of two transfers where
the primary refuses the first at submission while the accepted second
confirms with status 1 IS classified a success by `attemptSubmission`
(`success = true`), although one transfer of the bundle never obtained a
receipt. -/
theorem claim_C6_counterexample :
    (attemptSubmission cenvC6 bundleC6 callsC6 (1/2) 1 0).2
      = .ok { fundingHash := "H"
              transferHashes := ["H"]
              success := true
              attempts := 1
              error := none } ∧
    bundleC6.transferTxs.length = 2 ∧
    (∃ tx ∈ bundleC6.transferTxs, cenvC6.accepts tx = false) := by
  refine ⟨?_, ?_, ?_⟩
  · have hguard : guardedBundle cenvC6 bundleC6 callsC6 (1/2) = bundleC6 := by
      unfold guardedBundle
      rw [if_pos (show cenvC6.guardNonce = bundleC6.executorNonce from rfl)]
    simp only [attemptSubmission, hguard]
    rw [if_neg (show ¬ cenvC6.accepts bundleC6.fundingTx = false by decide)]
    rw [bundleC6_transferTxs]
    rw [if_neg (by decide)]
    simp [cenvC6, mkTransferTx]
  · rw [bundleC6_transferTxs]; rfl
  · refine ⟨mkTransferTx "E" (2 * 10 ^ 9) (5 * 10 ^ 8) 8453 ⟨"T", "d", 65000⟩ 0, ?_, rfl⟩
    rw [bundleC6_transferTxs]
    exact List.mem_cons_self _ _

/-- Claim C6 amended: an attempt whose submission phase does not throw is
classified a success exactly when at least one transfer submission was
accepted by the primary and every accepted transfer's receipt has status 1;
transfers refused at submission are excluded from the success criterion (so
the one-refused / one-confirmed bundle counts as a success). -/
theorem claim_C6_amended (cenv : ChainEnv) (bundle0 : SignedRescueBundle)
    (calls : List TokenTransferTx) (pg : ℚ) (attempt nPrivate : ℕ)
    (r : RescueResult) (evs : List Event)
    (h : attemptSubmission cenv bundle0 calls pg attempt nPrivate = (evs, .ok r)) :
    r.success = true ↔
      ((guardedBundle cenv bundle0 calls pg).transferTxs.filter cenv.accepts ≠ [] ∧
       ∀ tx ∈ (guardedBundle cenv bundle0 calls pg).transferTxs.filter cenv.accepts,
         cenv.receiptStatus tx = 1) := by
  have h2 : (attemptSubmission cenv bundle0 calls pg attempt nPrivate).2 = .ok r := by
    rw [h]
  simp only [attemptSubmission] at h2
  by_cases hacc :
      cenv.accepts (guardedBundle cenv bundle0 calls pg).fundingTx = false
  · rw [if_pos hacc] at h2
    cases h2
  · rw [if_neg hacc] at h2
    by_cases hemp :
        ((guardedBundle cenv bundle0 calls pg).transferTxs.filter cenv.accepts).isEmpty
    · rw [if_pos hemp] at h2
      injection h2 with hr
      subst hr
      rw [List.isEmpty_iff] at hemp
      simp [hemp]
    · rw [if_neg hemp] at h2
      injection h2 with hr
      subst hr
      rw [List.isEmpty_iff] at hemp
      simp only [List.all_eq_true, beq_iff_eq]
      constructor
      · intro hall
        exact ⟨hemp, hall⟩
      · intro hand
        exact hand.2

/-- Witness for the amended C6 at the counterexample input. -/
theorem claim_C6_amended_witness :
    (RescueResult.mk "H" ["H"] true 1 none).success = true ↔
      ((guardedBundle cenvC6 bundleC6 callsC6 (1/2)).transferTxs.filter
          cenvC6.accepts ≠ [] ∧
       ∀ tx ∈ (guardedBundle cenvC6 bundleC6 callsC6 (1/2)).transferTxs.filter
           cenvC6.accepts,
         cenvC6.receiptStatus tx = 1) :=
  claim_C6_amended cenvC6 bundleC6 callsC6 (1/2) 1 0
    (RescueResult.mk "H" ["H"] true 1 none)
    (attemptSubmission cenvC6 bundleC6 callsC6 (1/2) 1 0).1
    (by
      have hguard : guardedBundle cenvC6 bundleC6 callsC6 (1/2) = bundleC6 := by
        unfold guardedBundle
        rw [if_pos (show cenvC6.guardNonce = bundleC6.executorNonce from rfl)]
      have hsnd : (attemptSubmission cenvC6 bundleC6 callsC6 (1/2) 1 0).2
          = .ok (RescueResult.mk "H" ["H"] true 1 none) := by
        simp only [attemptSubmission, hguard]
        rw [if_neg (show ¬ cenvC6.accepts bundleC6.fundingTx = false by decide)]
        rw [bundleC6_transferTxs]
        rw [if_neg (by decide)]
        simp [cenvC6, mkTransferTx]
      calc attemptSubmission cenvC6 bundleC6 callsC6 (1/2) 1 0
          = ((attemptSubmission cenvC6 bundleC6 callsC6 (1/2) 1 0).1,
             (attemptSubmission cenvC6 bundleC6 callsC6 (1/2) 1 0).2) := rfl
        _ = _ := by rw [hsnd])

lemma submitTransfersOnly_events {cenv : ChainEnv} {fh : String}
    {txs : List TxRequest} {n : ℕ} {e : Event}
    (h : e ∈ (submitTransfersOnly cenv fh txs n).1) :
    (∃ tx ∈ txs, Event.txOf e = tx) ∧ Event.isAwaitFunding e = false := by
  unfold submitTransfersOnly at h
  simp only [] at h
  split at h
  · replace h : e ∈ (txs.map (fun tx => sendChunk n (cenv.accepts tx) tx)).flatten := h
    obtain ⟨tx, htx, hec⟩ := mem_transferChunks h
    rcases mem_sendChunk hec with ⟨g, _, he⟩ | he <;> subst he <;>
      exact ⟨⟨tx, htx, rfl⟩, rfl⟩
  · replace h : e ∈ (txs.map (fun tx => sendChunk n (cenv.accepts tx) tx)).flatten
        ++ (txs.filter cenv.accepts).map Event.awaitTransferReceipt := h
    rcases List.mem_append.1 h with h | h
    · obtain ⟨tx, htx, hec⟩ := mem_transferChunks h
      rcases mem_sendChunk hec with ⟨g, _, he⟩ | he <;> subst he <;>
        exact ⟨⟨tx, htx, rfl⟩, rfl⟩
    · obtain ⟨tx, htx, he⟩ := List.mem_map.1 h
      subst he
      exact ⟨⟨tx, List.mem_of_mem_filter htx, rfl⟩, rfl⟩

/-- Claim C4 amended: when an attempt fails with funding landed
(`balance ≥ totalGasCost`) and attempts remain, the controller's fast path
signs and submits no funding transaction (every event of the fast path is
about an executor-signed transaction and there is no funding receipt wait),
re-signs only the transfers against the freshly queried pending nonce with
the escalated fee `floor(gasPrice * 130 / 100)` — applied directly to the
bundle's gas price, NOT re-capped at 10 gwei — and, when the sub-attempt
succeeds, returns its result with `attempts = attempt + 1`. -/
theorem claim_C4_amended (cenv : ChainEnv) (bundle : SignedRescueBundle)
    (calls : List TokenTransferTx) (pg : ℚ) (nPrivate attempt : ℕ)
    (res : RescueResult)
    (hfail : res.success = false)
    (hfunded : cenv.balance ≥ bundle.totalGasCost)
    (hatt : attempt < MAX_RETRY_ATTEMPTS)
    (hsig : bundle.fundingTx.signer ≠ bundle.executorAddress) :
    (∀ e ∈ (fundedFastPath cenv bundle calls pg res.fundingHash nPrivate).1,
      (Event.txOf e).signer = bundle.executorAddress ∧
      Event.txOf e ≠ bundle.fundingTx ∧
      Event.isAwaitFunding e = false) ∧
    (∀ i, i < calls.length →
      (((resignTransferTxs bundle.executorAddress calls
            (escalateGas bundle.gasPrice) (parseUnitsGwei pg)
            cenv.fastNonce cenv.chainId).1.get? i).map TxRequest.maxFeePerGas
          = some (escalateGas bundle.gasPrice) ∧
       ((resignTransferTxs bundle.executorAddress calls
            (escalateGas bundle.gasPrice) (parseUnitsGwei pg)
            cenv.fastNonce cenv.chainId).1.get? i).map TxRequest.nonce
          = some (cenv.fastNonce + i))) ∧
    escalateGas bundle.gasPrice = ((⌊bundle.gasPrice * 130 / 100⌋ : ℤ) : ℚ) ∧
    ((fundedFastPath cenv bundle calls pg res.fundingHash nPrivate).2.success = true →
      afterSubmission cenv calls pg nPrivate attempt bundle res
        = ((fundedFastPath cenv bundle calls pg res.fundingHash nPrivate).1,
           .done { (fundedFastPath cenv bundle calls pg res.fundingHash nPrivate).2 with
                     attempts := attempt + 1 })) := by
  refine ⟨?_, ?_, ?_, ?_⟩
  · intro e he
    replace he : e ∈ ((resignTransferTxs bundle.executorAddress calls
        (escalateGas bundle.gasPrice) (parseUnitsGwei pg)
        cenv.fastNonce cenv.chainId).1).map Event.signTx
          ++ (submitTransfersOnly cenv res.fundingHash
              (resignTransferTxs bundle.executorAddress calls
                (escalateGas bundle.gasPrice) (parseUnitsGwei pg)
                cenv.fastNonce cenv.chainId).1 nPrivate).1 := he
    have key : ∀ tx ∈ (resignTransferTxs bundle.executorAddress calls
        (escalateGas bundle.gasPrice) (parseUnitsGwei pg)
        cenv.fastNonce cenv.chainId).1, tx.signer = bundle.executorAddress :=
      fun tx htx => (mem_signTransferTxs htx).1
    rcases List.mem_append.1 he with he | he
    · obtain ⟨tx, htx, he2⟩ := List.mem_map.1 he
      subst he2
      have hs := key tx htx
      exact ⟨hs, fun hc => hsig (by rw [← hc]; exact hs.symm ▸ hs), rfl⟩
    · obtain ⟨⟨tx, htx, he2⟩, hfa⟩ := submitTransfersOnly_events he
      have hs := key tx htx
      rw [he2]
      exact ⟨hs, fun hc => hsig (by rw [← hc]; exact hs), hfa⟩
  · intro i hi
    show ((signTransferTxs bundle.executorAddress calls _ _ cenv.fastNonce
        cenv.chainId).get? i).map TxRequest.maxFeePerGas = _ ∧
      ((signTransferTxs bundle.executorAddress calls _ _ cenv.fastNonce
        cenv.chainId).get? i).map TxRequest.nonce = _
    rw [signTransferTxs_get?, List.get?_eq_get hi]
    exact ⟨rfl, rfl⟩
  · show ((⌊bundle.gasPrice * (GAS_ESCALATION_FACTOR : ℚ) / 100⌋ : ℤ) : ℚ) = _
    norm_num [GAS_ESCALATION_FACTOR]
  · intro hsucc
    simp only [afterSubmission]
    rw [if_neg (by rw [hfail]; simp)]
    rw [if_pos ⟨hfunded, hatt⟩]
    rw [if_pos hsucc]

/-- Plan environment for the C4 counterexample: zero base fee, so the
planner's effective fee is exactly the capped max fee. -/
def penvC4 : PlanEnv := ⟨0, 5, 0, 8453⟩

/-- Bundle already priced at the 10 gwei cap
(`maxFeeGwei = 10`, `gasFactor = 100`). -/
def bundleC4 : SignedRescueBundle :=
  signRescueBundle penvC4 "S" "E" callsW (1/2) 10 false 100

/-- Chain state for the C4 counterexample: everything accepted, every
receipt status 1, executor balance far above the funding amount. -/
def cenvC4 : ChainEnv :=
  ⟨0, 0, 0, 8453, fun _ => true, fun _ => "H", fun _ => 1, 10 ^ 18⟩

lemma bundleC4_gasPrice : bundleC4.gasPrice = 10 ^ 10 := by
  rw [bundleC4, gasPrice_signRescueBundle]
  norm_num [penvC4, effectiveMaxFee, parseUnitsGwei, cappedMaxFeeGwei, GWEI,
    MAX_FEE_CAP_GWEI]

lemma escalateGas_bundleC4 : escalateGas bundleC4.gasPrice = 13 * 10 ^ 9 := by
  rw [bundleC4_gasPrice]
  show ((⌊(10 ^ 10 : ℚ) * (GAS_ESCALATION_FACTOR : ℚ) / 100⌋ : ℤ) : ℚ) = _
  norm_num [GAS_ESCALATION_FACTOR]

lemma bundleC4_freshTxs :
    (resignTransferTxs bundleC4.executorAddress callsW
        (escalateGas bundleC4.gasPrice) (parseUnitsGwei (1/2))
        cenvC4.fastNonce cenvC4.chainId).1
      = [mkTransferTx "E" (13 * 10 ^ 9) (5 * 10 ^ 8) 8453 ⟨"T", "d", 65000⟩ 0] := by
  show signTransferTxs "E" callsW _ _ 0 8453 = _
  rw [escalateGas_bundleC4]
  simp only [callsW, signTransferTxs]
  norm_num [parseUnitsGwei, GWEI]

/-- Counterexample to claim C4 as stated: on the funded fast path with a
bundle already priced at the 10 gwei cap, the re-signed transfer carries
`maxFeePerGas = 13 gwei`, strictly above the cap — the escalation
`gasPrice * 130 / 100` is NOT capped at 10 gwei — and the fast path
nevertheless succeeds, with the controller step returning
`attempts = attempt + 1 = 2`. -/
theorem claim_C4_counterexample :
    bundleC4.gasPrice = parseUnitsGwei MAX_FEE_CAP_GWEI ∧
    escalateGas bundleC4.gasPrice = 13 * 10 ^ 9 ∧
    parseUnitsGwei MAX_FEE_CAP_GWEI < 13 * 10 ^ 9 ∧
    Event.signTx (mkTransferTx "E" (13 * 10 ^ 9) (5 * 10 ^ 8) 8453
        ⟨"T", "d", 65000⟩ 0)
      ∈ (fundedFastPath cenvC4 bundleC4 callsW (1/2) "H" 0).1 ∧
    afterSubmission cenvC4 callsW (1/2) 0 1 bundleC4
        ⟨"H", ["H"], false, 1, some "One or more transfer transactions reverted"⟩
      = ((fundedFastPath cenvC4 bundleC4 callsW (1/2) "H" 0).1,
         .done { fundingHash := "H", transferHashes := ["H"], success := true,
                 attempts := 2, error := none }) := by
  have hgp : bundleC4.gasPrice = parseUnitsGwei MAX_FEE_CAP_GWEI := by
    rw [bundleC4_gasPrice]
    norm_num [parseUnitsGwei, MAX_FEE_CAP_GWEI, GWEI]
  have hfast2 : (fundedFastPath cenvC4 bundleC4 callsW (1/2) "H" 0).2
      = { fundingHash := "H", transferHashes := ["H"], success := true,
          attempts := 1, error := none } := by
    show (submitTransfersOnly cenvC4 "H"
        (resignTransferTxs bundleC4.executorAddress callsW
          (escalateGas bundleC4.gasPrice) (parseUnitsGwei (1/2))
          cenvC4.fastNonce cenvC4.chainId).1 0).2 = _
    rw [bundleC4_freshTxs]
    simp [submitTransfersOnly, cenvC6, cenvC4]
  refine ⟨hgp, escalateGas_bundleC4, by norm_num [parseUnitsGwei, MAX_FEE_CAP_GWEI, GWEI],
    ?_, ?_⟩
  · show Event.signTx _ ∈ ((resignTransferTxs bundleC4.executorAddress callsW
        (escalateGas bundleC4.gasPrice) (parseUnitsGwei (1/2))
        cenvC4.fastNonce cenvC4.chainId).1).map Event.signTx
          ++ (submitTransfersOnly cenvC4 "H"
              (resignTransferTxs bundleC4.executorAddress callsW
                (escalateGas bundleC4.gasPrice) (parseUnitsGwei (1/2))
                cenvC4.fastNonce cenvC4.chainId).1 0).1
    refine List.mem_append.2 (Or.inl ?_)
    rw [bundleC4_freshTxs]
    exact List.mem_map.2 ⟨_, List.mem_singleton.2 rfl, rfl⟩
  · have hfunded : cenvC4.balance ≥ bundleC4.totalGasCost := by
      show (10 ^ 18 : ℚ) ≥ callsW.foldl (fun acc tx => acc + tx.gasLimit) 0
          * bundleC4.gasPrice
      rw [bundleC4_gasPrice]
      norm_num [callsW]
    simp only [afterSubmission]
    rw [if_neg (by simp)]
    rw [if_pos ⟨hfunded, by norm_num [MAX_RETRY_ATTEMPTS]⟩]
    rw [if_pos (by rw [hfast2])]
    rw [hfast2]

/-- Witness for the amended C4 at the counterexample fixture. -/
theorem claim_C4_amended_witness :
    (∀ e ∈ (fundedFastPath cenvC4 bundleC4 callsW (1/2)
        (RescueResult.mk "H" [] false 1 none).fundingHash 0).1,
      (Event.txOf e).signer = bundleC4.executorAddress ∧
      Event.txOf e ≠ bundleC4.fundingTx ∧
      Event.isAwaitFunding e = false) ∧
    (∀ i, i < callsW.length →
      (((resignTransferTxs bundleC4.executorAddress callsW
            (escalateGas bundleC4.gasPrice) (parseUnitsGwei (1/2))
            cenvC4.fastNonce cenvC4.chainId).1.get? i).map TxRequest.maxFeePerGas
          = some (escalateGas bundleC4.gasPrice) ∧
       ((resignTransferTxs bundleC4.executorAddress callsW
            (escalateGas bundleC4.gasPrice) (parseUnitsGwei (1/2))
            cenvC4.fastNonce cenvC4.chainId).1.get? i).map TxRequest.nonce
          = some (cenvC4.fastNonce + i))) ∧
    escalateGas bundleC4.gasPrice = ((⌊bundleC4.gasPrice * 130 / 100⌋ : ℤ) : ℚ) ∧
    ((fundedFastPath cenvC4 bundleC4 callsW (1/2)
        (RescueResult.mk "H" [] false 1 none).fundingHash 0).2.success = true →
      afterSubmission cenvC4 callsW (1/2) 0 1 bundleC4
          (RescueResult.mk "H" [] false 1 none)
        = ((fundedFastPath cenvC4 bundleC4 callsW (1/2)
              (RescueResult.mk "H" [] false 1 none).fundingHash 0).1,
           .done { (fundedFastPath cenvC4 bundleC4 callsW (1/2)
                     (RescueResult.mk "H" [] false 1 none).fundingHash 0).2 with
                     attempts := 1 + 1 })) :=
  claim_C4_amended cenvC4 bundleC4 callsW (1/2) 0 1
    (RescueResult.mk "H" [] false 1 none) rfl
    (by

      show (10 ^ 18 : ℚ) ≥ callsW.foldl (fun acc tx => acc + tx.gasLimit) 0
          * bundleC4.gasPrice
      rw [bundleC4_gasPrice]
      norm_num [callsW])
    (by norm_num [MAX_RETRY_ATTEMPTS])
    (by decide)

/-- Claim C5 amended: the running gas factor follows
`gas_factor_k = round(gas_factor_(k-1) * 1.30)` from 100 (so 100, 130, 169
over three attempts), but the fresh plan of a retry scales the PREVIOUS
bundle's effective gas price (converted back to gwei), not the caller's
original max-fee input: the re-planned effective fee is
`max(min((prev_gas_price_gwei * gf) / 100, 10) gwei, base*2 + priority)`. -/
theorem claim_C5_amended (penv : PlanEnv) (sa ea : String)
    (calls : List TokenTransferTx) (pg : ℚ) (isC : Bool)
    (bundle : SignedRescueBundle) (gf : ℕ) :
    nextGasFactor 100 = 130 ∧
    nextGasFactor 130 = 169 ∧
    (replanBundle penv sa ea calls pg isC bundle gf).gasPrice
      = max (parseUnitsGwei (min (bundle.gasPrice / GWEI * gf / 100) MAX_FEE_CAP_GWEI))
          (penv.baseFeePerGas * 2 + parseUnitsGwei pg) := by
  refine ⟨rfl, rfl, ?_⟩
  rw [replanBundle, gasPrice_signRescueBundle, effectiveMaxFee_eq_max]
  rfl

/-- Plan environment of the first attempt for the C5 counterexample: high
base fee (5 gwei), so the first bundle's effective price (10.5 gwei) exceeds
the caller's 2 gwei max-fee input. -/
def penvC5 : PlanEnv := ⟨5 * 10 ^ 9, 5, 0, 8453⟩

/-- First-attempt bundle for the C5 counterexample. -/
def bundleC5 : SignedRescueBundle :=
  signRescueBundle penvC5 "S" "E" callsW (1/2) 2 false 100

/-- Plan environment of the retry for the C5 counterexample: base fee back
to zero. -/
def penvC5b : PlanEnv := ⟨0, 6, 0, 8453⟩

/-- Chain state of attempt 1 for the C5 counterexample: the pool refuses
everything, so the funding submission throws. -/
def cenvC5fail : ChainEnv :=
  ⟨0, 0, 0, 8453, fun _ => false, fun _ => "H", fun _ => 1, 0⟩

/-- Per-attempt environments for the C5 counterexample: attempt 1 fails at
submission, attempt 2 goes through cleanly. -/
def envsC5 : ℕ → AttemptEnv := fun a =>
  if a = 1 then ⟨penvC5, cenvC5fail⟩ else ⟨penvC5b, cenvW⟩

lemma bundleC5_gasPrice : bundleC5.gasPrice = 105 * 10 ^ 8 := by
  rw [bundleC5, gasPrice_signRescueBundle]
  norm_num [penvC5, effectiveMaxFee, parseUnitsGwei, cappedMaxFeeGwei, GWEI,
    MAX_FEE_CAP_GWEI]

lemma replanC5_gasPrice :
    (replanBundle penvC5b "S" "E" callsW (1/2) false bundleC5 (nextGasFactor 100)).gasPrice
      = 10 ^ 10 := by
  rw [replanBundle, gasPrice_signRescueBundle]
  rw [effectiveMaxFee_eq_max]
  rw [show (cappedMaxFeeGwei (bundleC5.gasPrice / GWEI) ((nextGasFactor 100 : ℕ) : ℚ))
      = min (bundleC5.gasPrice / GWEI * 130 / 100) MAX_FEE_CAP_GWEI from rfl]
  rw [bundleC5_gasPrice]
  norm_num [penvC5b, parseUnitsGwei, GWEI, MAX_FEE_CAP_GWEI]

lemma replanC5_transferTxs :
    (replanBundle penvC5b "S" "E" callsW (1/2) false bundleC5
        (nextGasFactor 100)).transferTxs
      = [mkTransferTx "E" (10 ^ 10) (5 * 10 ^ 8) 8453 ⟨"T", "d", 65000⟩ 0] := by
  show signTransferTxs "E" callsW
      (replanBundle penvC5b "S" "E" callsW (1/2) false bundleC5
        (nextGasFactor 100)).gasPrice
      (parseUnitsGwei (1/2)) 0 8453 = _
  rw [replanC5_gasPrice]
  simp only [callsW, signTransferTxs]
  norm_num [parseUnitsGwei, GWEI]

lemma attempt1C5 :
    attemptSubmission cenvC5fail bundleC5 callsW (1/2) 1 0
      = ((attemptSubmission cenvC5fail bundleC5 callsW (1/2) 1 0).1,
         Except.error "funding submission refused") := by
  have hguard : guardedBundle cenvC5fail bundleC5 callsW (1/2) = bundleC5 := by
    unfold guardedBundle
    rw [if_pos (show cenvC5fail.guardNonce = bundleC5.executorNonce from rfl)]
  have hsnd : (attemptSubmission cenvC5fail bundleC5 callsW (1/2) 1 0).2
      = Except.error "funding submission refused" := by
    simp only [attemptSubmission, hguard]
    rw [if_pos (show cenvC5fail.accepts bundleC5.fundingTx = false from rfl)]
  exact Prod.ext rfl hsnd

lemma attempt2C5 :
    attemptSubmission cenvW
        (replanBundle penvC5b "S" "E" callsW (1/2) false bundleC5 (nextGasFactor 100))
        callsW (1/2) 2 0
      = ((attemptSubmission cenvW
            (replanBundle penvC5b "S" "E" callsW (1/2) false bundleC5 (nextGasFactor 100))
            callsW (1/2) 2 0).1,
         Except.ok (RescueResult.mk "H" ["H"] true 2 none)) := by
  have hguard : guardedBundle cenvW
      (replanBundle penvC5b "S" "E" callsW (1/2) false bundleC5 (nextGasFactor 100))
      callsW (1/2)
      = replanBundle penvC5b "S" "E" callsW (1/2) false bundleC5 (nextGasFactor 100) := by
    unfold guardedBundle
    rw [if_pos (show cenvW.guardNonce
        = (replanBundle penvC5b "S" "E" callsW (1/2) false bundleC5
            (nextGasFactor 100)).executorNonce from rfl)]
  have hsnd : (attemptSubmission cenvW
      (replanBundle penvC5b "S" "E" callsW (1/2) false bundleC5 (nextGasFactor 100))
      callsW (1/2) 2 0).2
      = Except.ok (RescueResult.mk "H" ["H"] true 2 none) := by
    simp only [attemptSubmission, hguard]
    rw [if_neg (show ¬ cenvW.accepts
        (replanBundle penvC5b "S" "E" callsW (1/2) false bundleC5
          (nextGasFactor 100)).fundingTx = false from by decide)]
    rw [replanC5_transferTxs]
    rw [if_neg (by decide)]
    simp [cenvW, mkTransferTx]
  exact Prod.ext rfl hsnd

/-- Counterexample to claim C5 as stated: starting from a first-attempt
bundle whose effective price is 10.5 gwei (base fee 5 gwei exceeds the
caller's 2-gwei max fee), the attempt-2 re-plan of the retry loop passes the
PREVIOUS bundle's price (10.5 gwei), not the caller's original
`max_fee_gwei = 2`, as the planner's max-fee input: the re-planned bundle is
priced at 10 gwei and the loop signs an attempt-2 transfer at 10 gwei,
whereas scaling the original input by `gas_factor_2 / 100 = 1.30` (before
capping) would give 2.6 gwei. -/
theorem claim_C5_counterexample :
    bundleC5.gasPrice / GWEI = 21 / 2 ∧
    (21 / 2 : ℚ) ≠ 2 ∧
    (replanBundle penvC5b "S" "E" callsW (1/2) false bundleC5
        (nextGasFactor 100)).gasPrice = 10 ^ 10 ∧
    (signRescueBundle penvC5b "S" "E" callsW (1/2) 2 false 130).gasPrice
      = 26 * 10 ^ 8 ∧
    (10 ^ 10 : ℚ) ≠ 26 * 10 ^ 8 ∧
    (submitRescueBundle envsC5 "S" "E" callsW (1/2) false 0 bundleC5).2
      = RescueResult.mk "H" ["H"] true 2 none ∧
    Event.signTx (mkTransferTx "E" (10 ^ 10) (5 * 10 ^ 8) 8453 ⟨"T", "d", 65000⟩ 0)
      ∈ (submitRescueBundle envsC5 "S" "E" callsW (1/2) false 0 bundleC5).1 := by
  refine ⟨?_, by norm_num, replanC5_gasPrice, ?_, by norm_num, ?_, ?_⟩
  · rw [bundleC5_gasPrice]; norm_num [GWEI]
  · rw [gasPrice_signRescueBundle]
    norm_num [penvC5b, effectiveMaxFee, parseUnitsGwei, cappedMaxFeeGwei, GWEI,
      MAX_FEE_CAP_GWEI]
  · show (runAttempts envsC5 "S" "E" callsW (1/2) false 0 (2 + 1) 1 100 bundleC5
        none).2 = _
    rw [runAttempts]
    simp only [envsC5]
    norm_num
    rw [attempt1C5]
    show (runAttempts envsC5 "S" "E" callsW (1/2) false 0 (1 + 1) 2 100 bundleC5
        (some "funding submission refused")).2 = _
    rw [runAttempts]
    simp only [envsC5]
    norm_num
    rw [attempt2C5]
    simp only [afterSubmission]
    norm_num
  · show _ ∈ (runAttempts envsC5 "S" "E" callsW (1/2) false 0 (2 + 1) 1 100 bundleC5
        none).1
    rw [runAttempts]
    simp only [envsC5]
    norm_num
    rw [attempt1C5]
    refine List.mem_append.2 (Or.inr ?_)
    show _ ∈ (runAttempts envsC5 "S" "E" callsW (1/2) false 0 (1 + 1) 2 100 bundleC5
        (some "funding submission refused")).1
    rw [runAttempts]
    simp only [envsC5]
    norm_num
    rw [attempt2C5]
    simp only [afterSubmission]
    norm_num
    refine Or.inr (Or.inl ?_)
    rw [replanC5_transferTxs]
    exact List.mem_singleton.2 (by norm_num)

end BaseUtils
